import Mathlib

/-!
Verification of the menu recommendation core of the `cf-recipe-generator`
repository (file `服务层(Service Layer)/Cloudflare Workers(API服务)/推荐算法.js`).

The JavaScript classes `RecommendationEngine`, `NutritionCalculator` and
`ShoppingListGenerator` are shallowly embedded below.  JavaScript numbers are
modelled as exact rationals (`ℚ`); `Math.round` is modelled as
`jsRound x = ⌊x + 1/2⌋` (round half towards +∞, which is what `Math.round`
does).  Optional/absent object fields are modelled with `Option`; the
JavaScript truthiness tests on those fields (`recipe.适用季节 && …`) become
`Option.isSome` tests, which is exact for array- and object-valued fields
(an empty array is truthy in JavaScript) and for the numeric fields involved
(a `0` cook time behaves identically under both readings in the filter).
The ambient randomness of `randomSelect` (`sort(() => 0.5 - Math.random())`,
which produces some permutation of its input) is modelled by an explicit
`shuffle` parameter, the locale collation `localeCompare(…, 'zh-CN')` by an
explicit `collate` parameter, and `new Date().toISOString()` by an explicit
`now` parameter.
-/

/-- Floor of a rational, computed with flooring integer division (so that it
evaluates by kernel reduction; `Int.floor` on `ℚ` does not). -/
def ratFloor (q : ℚ) : ℤ := Int.fdiv q.num (q.den : ℤ)

theorem ratFloor_eq_floor (q : ℚ) : ratFloor q = ⌊q⌋ := by
  rw [ratFloor, Rat.floor_def, Int.fdiv_eq_ediv _ (Int.ofNat_nonneg _)]

/-- JavaScript `Math.round`: round half up (towards +∞). -/
def jsRound (x : ℚ) : ℤ := ratFloor (x + 1/2)

theorem jsRound_eq_floor (x : ℚ) : jsRound x = ⌊x + 1/2⌋ := ratFloor_eq_floor _

/-- `Math.round(x * 10) / 10`: round to 1 decimal place. -/
def round1 (x : ℚ) : ℚ := (jsRound (x * 10) : ℚ) / 10

/-- `Math.round(x * 100) / 100`: round to 2 decimal places. -/
def round2 (x : ℚ) : ℚ := (jsRound (x * 100) : ℚ) / 100

/-- Rounding to 1 decimal digit using standard round-half-up, as the spec
words it (`round(q, 1)`), written directly from the spec's description. -/
def specRound1 (x : ℚ) : ℚ := (ratFloor (x * 10 + 1/2) : ℚ) / 10

/-- Rounding to 2 decimal digits using standard round-half-up, as the spec
words it (`round(q, 2)`). -/
def specRound2 (x : ℚ) : ℚ := (ratFloor (x * 100 + 1/2) : ℚ) / 100

theorem round1_eq_specRound1 (x : ℚ) : round1 x = specRound1 x := rfl

theorem round2_eq_specRound2 (x : ℚ) : round2 x = specRound2 x := rfl

/-- An entry of `标准份量.食材列表`: `{ 食材名称, 用量, 单位 }`. -/
structure Ingredient where
  «食材名称» : String
  «用量» : ℚ
  «单位» : Option String
deriving Repr, DecidableEq

/-- An entry of `调整后食材`: the spread `{...ingredient, 调整用量}` produced
by `adjustServings`. -/
structure AdjustedIngredient where
  «食材名称» : String
  «用量» : ℚ
  «单位» : Option String
  «调整用量» : ℚ
deriving Repr, DecidableEq

/-- The `标准份量` object of a recipe.  `食材列表` is optional (its presence
is tested with `adjusted.标准份量.食材列表` before mapping). -/
structure StdPortion where
  «基准人数» : ℚ
  «食材列表» : Option (List Ingredient)
deriving Repr, DecidableEq

/-- The `营养成分` object; each field is read as `(x || 0)` by the
nutrition calculator, so absent fields are modelled with `Option`. -/
structure NutritionFacts where
  «热量» : Option ℚ
  «蛋白质» : Option ℚ
  «碳水化合物» : Option ℚ
  «脂肪» : Option ℚ
  «纤维素» : Option ℚ
deriving Repr, DecidableEq

/-- A recipe object as the engine reads it.  Fields the engine tests for
presence are `Option`s.  `调整后食材` is the field `adjustServings` adds to
its (deep-copied) result; catalog recipes carry `none` there.  `标签` is the
free-form tag list of the spec's data model (`菜谱标签` in the filter's
comment); the shipped filter never reads it, it is carried so that the
spec's dietary-exclusion predicate can be stated. -/
structure Recipe where
  «菜品标识» : String
  «菜品名称» : String
  «菜品分类» : Option (List String)
  «适用季节» : Option (List String)
  «难度等级» : Option String
  «准备时间» : Option ℚ
  «烹饪时间» : Option ℚ
  «标准份量» : Option StdPortion
  «营养成分» : Option NutritionFacts
  «标签» : List String
  «调整后食材» : Option (List AdjustedIngredient)
deriving Repr, DecidableEq

/-- The request parameters built by `handleRecommend`.  `烹饪时间 = none`
models a falsy (absent or `0`) time budget, `难度等级 = "不限"` an unset
difficulty. -/
structure Params where
  «用餐人数» : ℚ
  «季节» : String
  «口味偏好» : List String
  «特殊需求» : List String
  «烹饪时间» : Option ℚ
  «难度等级» : String
deriving Repr, DecidableEq

/-- The menu object: the object literal built in `recommend` has exactly the
four category keys `主菜`, `配菜`, `汤品`, `主食`. -/
structure Menu where
  «主菜» : List Recipe
  «配菜» : List Recipe
  «汤品» : List Recipe
  «主食» : List Recipe
deriving Repr, DecidableEq

/-- `RecommendationEngine.filterRecipes`, predicate part: the three
early-return tests (the `特殊需求` block is a no-op in the source:
`// 简化处理，暂时通过`). -/
def filterPred (params : Params) (r : Recipe) : Bool :=
  if params.«季节» != "不限" && r.«适用季节».isSome
      && !((r.«适用季节».getD []).contains params.«季节») then
    false
  else if params.«难度等级» != "不限" && r.«难度等级».isSome
      && (r.«难度等级».getD "") != params.«难度等级» then
    false
  else if params.«烹饪时间».isSome && r.«烹饪时间».isSome
      && decide (params.«烹饪时间».getD 0 < r.«烹饪时间».getD 0) then
    false
  else
    true

/-- `RecommendationEngine.filterRecipes`. -/
def filterRecipes (recipes : List Recipe) (params : Params) : List Recipe :=
  recipes.filter (filterPred params)

/-- The relaxed parameters used by the retry: `{ ...params, 难度等级: '不限' }`. -/
def relaxedParams (params : Params) : Params := { params with «难度等级» := "不限" }

/-- The filtered list `recommend` actually works with: the strict pass, then,
if it produced fewer than 10 recipes, one relaxed pass. -/
def effectiveFiltered (recipes : List Recipe) (params : Params) : List Recipe :=
  let filtered := filterRecipes recipes params
  if filtered.length < 10 then filterRecipes recipes (relaxedParams params) else filtered

/-- The per-category bucket: `filteredRecipes.filter(r => r.菜品分类 &&
r.菜品分类.includes(cat))`. -/
def bucketOf (cat : String) (filtered : List Recipe) : List Recipe :=
  filtered.filter fun r => r.«菜品分类».isSome && (r.«菜品分类».getD []).contains cat

/-- `RecommendationEngine.randomSelect`: shuffle, then
`slice(0, Math.min(count, shuffled.length))`. -/
def randomSelect (shuffle : List Recipe → List Recipe) (recipes : List Recipe)
    (count : ℕ) : List Recipe :=
  let shuffled := shuffle recipes
  shuffled.take (min count shuffled.length)

/-- `RecommendationEngine.selectMainDishes`. -/
def selectMainDishes (shuffle : List Recipe → List Recipe) (recipes : List Recipe)
    (params : Params) : List Recipe :=
  if recipes.length = 0 then []
  else randomSelect shuffle recipes (if params.«用餐人数» ≥ 8 then 2 else 1)

/-- `RecommendationEngine.selectSideDishes`. -/
def selectSideDishes (shuffle : List Recipe → List Recipe) (recipes : List Recipe)
    (params : Params) : List Recipe :=
  if recipes.length = 0 then []
  else
    randomSelect shuffle recipes
      (if params.«用餐人数» ≤ 4 then 1 else if params.«用餐人数» ≤ 8 then 2 else 3)

/-- `RecommendationEngine.selectSoups`. -/
def selectSoups (shuffle : List Recipe → List Recipe) (recipes : List Recipe)
    (_params : Params) : List Recipe :=
  if recipes.length = 0 then [] else randomSelect shuffle recipes 1

/-- `RecommendationEngine.selectStaples`. -/
def selectStaples (shuffle : List Recipe → List Recipe) (recipes : List Recipe)
    (_params : Params) : List Recipe :=
  if recipes.length = 0 then [] else randomSelect shuffle recipes 1

/-- The category partition plus selection step of `recommend`. -/
def selectedMenu (shuffle : List Recipe → List Recipe) (filtered : List Recipe)
    (params : Params) : Menu where
  «主菜» := selectMainDishes shuffle (bucketOf "主菜" filtered) params
  «配菜» := selectSideDishes shuffle (bucketOf "配菜" filtered) params
  «汤品» := selectSoups shuffle (bucketOf "汤品" filtered) params
  «主食» := selectStaples shuffle (bucketOf "主食" filtered) params

/-- The per-recipe body of `adjustServings`: skip when `标准份量` is absent,
otherwise attach `调整后食材` with `调整用量 = Math.round(用量*ratio*10)/10`
(the deep copy `JSON.parse(JSON.stringify(recipe))` is value-identity here). -/
def adjustOne (people : ℚ) (recipe : Recipe) : Recipe :=
  match recipe.«标准份量» with
  | none => recipe
  | some sp =>
    let ratio := people / sp.«基准人数»
    match sp.«食材列表» with
    | none => recipe
    | some lst =>
      { recipe with
        «调整后食材» := some (lst.map fun ing =>
          { «食材名称» := ing.«食材名称», «用量» := ing.«用量», «单位» := ing.«单位»,
            «调整用量» := round1 (ing.«用量» * ratio) }) }

/-- `RecommendationEngine.adjustServings`. -/
def adjustServings (menu : Menu) (people : ℚ) : Menu where
  «主菜» := menu.«主菜».map (adjustOne people)
  «配菜» := menu.«配菜».map (adjustOne people)
  «汤品» := menu.«汤品».map (adjustOne people)
  «主食» := menu.«主食».map (adjustOne people)

/-- `RecommendationEngine.recommend`: filter (with the one relaxation retry),
partition, select, and adjust servings. -/
def recommend (shuffle : List Recipe → List Recipe) (recipes : List Recipe)
    (params : Params) : Menu :=
  adjustServings (selectedMenu shuffle (effectiveFiltered recipes params) params)
    params.«用餐人数»

/-- `Object.values(menu).flat()` in the insertion order of the menu literal. -/
def menuFlat (menu : Menu) : List Recipe :=
  menu.«主菜» ++ menu.«配菜» ++ menu.«汤品» ++ menu.«主食»

/-- The totals object of `NutritionCalculator.calculate`. -/
structure NutritionTotals where
  «热量» : ℚ
  «蛋白质» : ℚ
  «碳水化合物» : ℚ
  «脂肪» : ℚ
  «纤维素» : ℚ
deriving Repr, DecidableEq

/-- The percentage object: `Math.round((value / dailyRecommendation[key]) * 100)`
per nutrient. -/
structure NutritionPercentages where
  «热量» : ℤ
  «蛋白质» : ℤ
  «碳水化合物» : ℤ
  «脂肪» : ℤ
  «纤维素» : ℤ
deriving Repr, DecidableEq

/-- The `scores` object of `evaluateNutrition` after `总体` is added. -/
structure NutritionScores where
  «热量» : String
  «蛋白质» : String
  «脂肪» : String
  «总体» : String
deriving Repr, DecidableEq

/-- The value returned by `NutritionCalculator.calculate`. -/
structure NutritionInfo where
  «总量» : NutritionTotals
  «百分比» : NutritionPercentages
  «评价» : NutritionScores
  «建议» : List String
deriving Repr, DecidableEq

/-- The fixed reference daily values (`dailyRecommendation`). -/
def dailyRecommendation : NutritionTotals :=
  { «热量» := 2000, «蛋白质» := 60, «碳水化合物» := 300, «脂肪» := 67, «纤维素» := 25 }

/-- One recipe's contribution step in the totals accumulation of `calculate`:
`ratio = recipe.标准份量 ? people / 基准人数 : 1`, each nutrient read with
`(x || 0)`, recipes without `营养成分` skipped. -/
def addNutrition (people : ℚ) (acc : NutritionTotals) (r : Recipe) : NutritionTotals :=
  match r.«营养成分» with
  | none => acc
  | some n =>
    let ratio : ℚ :=
      match r.«标准份量» with
      | some sp => people / sp.«基准人数»
      | none => 1
    { «热量» := acc.«热量» + n.«热量».getD 0 * ratio,
      «蛋白质» := acc.«蛋白质» + n.«蛋白质».getD 0 * ratio,
      «碳水化合物» := acc.«碳水化合物» + n.«碳水化合物».getD 0 * ratio,
      «脂肪» := acc.«脂肪» + n.«脂肪».getD 0 * ratio,
      «纤维素» := acc.«纤维素» + n.«纤维素».getD 0 * ratio }

/-- The `total` accumulation of `calculate` over `Object.values(menu).flat()`. -/
def calcTotals (menu : Menu) (people : ℚ) : NutritionTotals :=
  (menuFlat menu).foldl (addNutrition people) ⟨0, 0, 0, 0, 0⟩

/-- `NutritionCalculator.evaluateNutrition`. -/
def evaluateNutrition (total recommendation : NutritionTotals) : NutritionScores :=
  let calorieRatio := total.«热量» / recommendation.«热量»
  let cal := if calorieRatio < 7/10 then "偏低"
             else if calorieRatio > 13/10 then "偏高" else "适中"
  let proteinRatio := total.«蛋白质» / recommendation.«蛋白质»
  let pro := if proteinRatio < 8/10 then "偏低"
             else if proteinRatio > 12/10 then "偏高" else "充足"
  let fatRatio := total.«脂肪» / recommendation.«脂肪»
  let fat := if fatRatio < 7/10 then "偏低"
             else if fatRatio > 13/10 then "偏高" else "适中"
  let lowCount := (([cal, pro, fat]).filter (fun s => s == "偏低")).length
  let highCount := (([cal, pro, fat]).filter (fun s => s == "偏高")).length
  let overall :=
    if lowCount > 2 then "营养不足"
    else if highCount > 2 then "营养过剩"
    else if pro = "充足" ∧ fat = "适中" then "营养均衡"
    else "基本均衡"
  { «热量» := cal, «蛋白质» := pro, «脂肪» := fat, «总体» := overall }

/-- `NutritionCalculator.getNutritionSuggestions`. -/
def getNutritionSuggestions (evaluation : NutritionScores) : List String :=
  let s1 := if evaluation.«热量» = "偏低" then ["建议增加主食或蛋白质摄入"]
            else if evaluation.«热量» = "偏高" then ["建议减少油脂或主食摄入"] else []
  let s2 := if evaluation.«蛋白质» = "偏低" then ["建议增加肉类、豆制品或蛋奶摄入"] else []
  let s3 := if evaluation.«脂肪» = "偏高" then ["建议减少油炸或高脂肪食材"] else []
  let suggestions := s1 ++ s2 ++ s3
  if suggestions.length = 0 then ["当前菜单营养均衡，继续保持"] else suggestions

/-- `NutritionCalculator.calculate`. -/
def calculate (menu : Menu) (people : ℚ) : NutritionInfo :=
  let total := calcTotals menu people
  let percentages : NutritionPercentages :=
    { «热量» := jsRound ((total.«热量» / dailyRecommendation.«热量») * 100),
      «蛋白质» := jsRound ((total.«蛋白质» / dailyRecommendation.«蛋白质») * 100),
      «碳水化合物» := jsRound ((total.«碳水化合物» / dailyRecommendation.«碳水化合物») * 100),
      «脂肪» := jsRound ((total.«脂肪» / dailyRecommendation.«脂肪») * 100),
      «纤维素» := jsRound ((total.«纤维素» / dailyRecommendation.«纤维素») * 100) }
  let evaluation := evaluateNutrition total dailyRecommendation
  { «总量» := total, «百分比» := percentages, «评价» := evaluation,
    «建议» := getNutritionSuggestions evaluation }

/-- `name.includes(keyword)`: substring containment on JavaScript strings. -/
def strIncludes (name keyword : String) : Bool :=
  (name.toList.tails).any fun t => keyword.toList.isPrefixOf t

/-- The inline keyword-to-category tables of `categorizeIngredient`, in their
source order. -/
def keywordTable : List (String × List String) :=
  [("蔬菜类", ["菜", "笋", "菇", "菌", "椒", "瓜", "茄", "豆", "萝卜", "胡萝卜", "土豆", "红薯"]),
   ("肉类", ["肉", "排", "腿", "蹄", "肝", "肚", "肠"]),
   ("水产类", ["鱼", "虾", "蟹", "贝", "蛤", "蛏", "蚝", "参"]),
   ("调味品", ["油", "盐", "酱", "醋", "糖", "料酒", "生抽", "老抽", "蚝油", "香油"]),
   ("主食类", ["米", "面", "粉", "饭", "粥", "馒头", "包子", "饺子"])]

/-- `ShoppingListGenerator.categorizeIngredient`: first table (in order) one of
whose keywords occurs in the name wins; no match gives `其他`. -/
def categorizeIngredient (name : String) : String :=
  match keywordTable.find? (fun e => e.2.any fun keyword => strIncludes name keyword) with
  | some e => e.1
  | none => "其他"

/-- The accumulator value `items[key]` of `ShoppingListGenerator.generate`:
`{ 用量, 单位, 分类 }`. -/
structure ItemAcc where
  «用量» : ℚ
  «单位» : String
  «分类» : String
deriving Repr, DecidableEq

/-- An entry of a category list of the shopping list:
`{ 名称, 用量, 单位, 已购买 }`. -/
structure ShoppingEntry where
  «名称» : String
  «用量» : ℚ
  «单位» : String
  «已购买» : Bool
deriving Repr, DecidableEq

/-- The `categories` object of `generate`: exactly six fixed keys. -/
structure ShoppingCategories where
  «蔬菜类» : List ShoppingEntry
  «肉类» : List ShoppingEntry
  «水产类» : List ShoppingEntry
  «调味品» : List ShoppingEntry
  «主食类» : List ShoppingEntry
  «其他» : List ShoppingEntry
deriving Repr, DecidableEq

/-- The `统计` object of `generate`. -/
structure ShoppingStats where
  «总项数» : ℕ
  «分类统计» : List (String × ℕ)
deriving Repr, DecidableEq

/-- The value returned by `ShoppingListGenerator.generate`. -/
structure ShoppingList where
  «清单» : ShoppingCategories
  «统计» : ShoppingStats
  «生成时间» : String
  «用餐人数» : ℚ
  «提示» : List String
deriving Repr, DecidableEq

/-- One ingredient's effect on the `items` accumulator of `generate`:
insert `{用量: 0, 单位: ingredient.单位 || '适量', 分类: categorize(名称)}`
on first sight of the name, then `items[key].用量 += 调整用量`.  The
accumulator is the insertion-ordered association list behind the plain
JavaScript object `items`. -/
def addIngredient (items : List (String × ItemAcc)) (ing : AdjustedIngredient) :
    List (String × ItemAcc) :=
  let key := ing.«食材名称»
  let base :=
    if items.any (fun kv => kv.1 == key) then items
    else items ++ [(key, { «用量» := 0, «单位» := ing.«单位».getD "适量",
                           «分类» := categorizeIngredient key })]
  base.map fun kv =>
    if kv.1 == key then (kv.1, { kv.2 with «用量» := kv.2.«用量» + ing.«调整用量» }) else kv

/-- All scaled ingredients of the menu, in traversal order
(`Object.values(menu).flat()`, recipes without `调整后食材` skipped). -/
def allAdjusted (menu : Menu) : List AdjustedIngredient :=
  (menuFlat menu).flatMap fun r => r.«调整后食材».getD []

/-- The fully accumulated `items` object of `generate`. -/
def buildItems (menu : Menu) : List (String × ItemAcc) :=
  (allAdjusted menu).foldl addIngredient []

/-- The category list for one of the six fixed keys, before sorting:
entries of `items` (in insertion order) whose `分类` is `cat`, rendered as
`{名称, 用量: Math.round(用量*100)/100, 单位, 已购买: false}`. -/
def entriesFor (items : List (String × ItemAcc)) (cat : String) : List ShoppingEntry :=
  (items.filter fun kv => kv.2.«分类» == cat).map fun kv =>
    { «名称» := kv.1, «用量» := round2 kv.2.«用量», «单位» := kv.2.«单位», «已购买» := false }

/-- One sorted category list: JavaScript's stable `sort` with the comparator
`(a, b) => a.名称.localeCompare(b.名称, 'zh-CN')`, the collation being the
`collate` parameter. -/
def sortedEntriesFor (collate : String → String → Bool)
    (items : List (String × ItemAcc)) (cat : String) : List ShoppingEntry :=
  (entriesFor items cat).mergeSort fun a b => collate a.«名称» b.«名称»

/-- `ShoppingListGenerator.getShoppingTips`. -/
def getShoppingTips (categories : ShoppingCategories) : List String :=
  let t1 := if categories.«蔬菜类».length > 5 then ["蔬菜建议新鲜购买，当天使用"] else []
  let t2 := if categories.«肉类».length > 0 then ["肉类建议冷冻保存，使用前解冻"] else []
  let t3 := if categories.«水产类».length > 0 then ["水产建议当天购买，保持新鲜"] else []
  let t4 :=
    if categories.«蔬菜类».length > 0 ∨ categories.«肉类».length > 0 ∨
        categories.«水产类».length > 0 ∨ categories.«调味品».length > 0 ∨
        categories.«主食类».length > 0 ∨ categories.«其他».length > 0 then
      ["建议按照清单分类购买，提高效率"]
    else []
  let tips := t1 ++ t2 ++ t3 ++ t4
  if tips.length > 0 then tips else ["根据清单购买即可"]

/-- `ShoppingListGenerator.generate`. -/
def generate (collate : String → String → Bool) (menu : Menu) (people : ℚ)
    (now : String) : ShoppingList :=
  let items := buildItems menu
  let categories : ShoppingCategories :=
    { «蔬菜类» := sortedEntriesFor collate items "蔬菜类",
      «肉类» := sortedEntriesFor collate items "肉类",
      «水产类» := sortedEntriesFor collate items "水产类",
      «调味品» := sortedEntriesFor collate items "调味品",
      «主食类» := sortedEntriesFor collate items "主食类",
      «其他» := sortedEntriesFor collate items "其他" }
  let catList : List (String × List ShoppingEntry) :=
    [("蔬菜类", categories.«蔬菜类»), ("肉类", categories.«肉类»),
     ("水产类", categories.«水产类»), ("调味品", categories.«调味品»),
     ("主食类", categories.«主食类»), ("其他", categories.«其他»)]
  { «清单» := categories,
    «统计» := { «总项数» := items.length,
                «分类统计» := (catList.filter fun e => e.2.length > 0).map
                  fun e => (e.1, e.2.length) },
    «生成时间» := now,
    «用餐人数» := people,
    «提示» := getShoppingTips categories }

/-- Dynamic access `categories[category]` on the六-key categories object. -/
def catField (categories : ShoppingCategories) (cat : String) : List ShoppingEntry :=
  if cat = "蔬菜类" then categories.«蔬菜类»
  else if cat = "肉类" then categories.«肉类»
  else if cat = "水产类" then categories.«水产类»
  else if cat = "调味品" then categories.«调味品»
  else if cat = "主食类" then categories.«主食类»
  else if cat = "其他" then categories.«其他»
  else []

/-- The full output bundle of one `/api/recommend` request's core pipeline:
menu, nutrition summary and shopping list (the fields `菜单`, `营养信息`,
`购物清单` of the response). -/
structure MenuBundle where
  «菜单» : Menu
  «营养信息» : NutritionInfo
  «购物清单» : ShoppingList
deriving Repr, DecidableEq

/-- The core pipeline of `handleRecommend`: recommend, then derive nutrition
and shopping list from the adjusted menu and the party size. -/
def fullBundle (shuffle : List Recipe → List Recipe)
    (collate : String → String → Bool) (now : String)
    (recipes : List Recipe) (params : Params) : MenuBundle :=
  let menu := recommend shuffle recipes params
  { «菜单» := menu,
    «营养信息» := calculate menu params.«用餐人数»,
    «购物清单» := generate collate menu params.«用餐人数» now }

/-! ## Concrete inputs used by witnesses and counterexamples -/

/-- A minimal catalog recipe: a main dish with no optional data. -/
def plainRecipe (id : String) : Recipe :=
  { «菜品标识» := id, «菜品名称» := id, «菜品分类» := some ["主菜"],
    «适用季节» := none, «难度等级» := none, «准备时间» := none, «烹饪时间» := none,
    «标准份量» := none, «营养成分» := none, «标签» := [], «调整后食材» := none }

/-- The sample ingredient list of the `SPRING001` recipe in the source. -/
def wIngs1 : List Ingredient :=
  [{ «食材名称» := "春笋", «用量» := 500, «单位» := some "克" },
   { «食材名称» := "猪里脊肉", «用量» := 300, «单位» := some "克" }]

/-- The `SPRING001` sample recipe of the source. -/
def wRecipe1 : Recipe :=
  { «菜品标识» := "SPRING001", «菜品名称» := "春笋炒肉片",
    «菜品分类» := some ["主菜", "时令菜"], «适用季节» := some ["春季"],
    «难度等级» := some "初级", «准备时间» := some 15, «烹饪时间» := some 10,
    «标准份量» := some { «基准人数» := 6, «食材列表» := some wIngs1 },
    «营养成分» := none, «标签» := [], «调整后食材» := none }

/-- Default request parameters (`人数=6`, current season unset, time 120). -/
def wParams : Params :=
  { «用餐人数» := 6, «季节» := "不限", «口味偏好» := [], «特殊需求» := [],
    «烹饪时间» := some 120, «难度等级» := "不限" }

/-- A ten-recipe catalog that passes every strict filter. -/
def wCat10 : List Recipe :=
  ["a", "b", "c", "d", "e", "f", "g", "h", "i", "j"].map plainRecipe

/-! ## C1 — scaling law -/

/-- C1: for every selected recipe whose `baseServings` is present and ≥ 1 and
every entry of its ingredient list with quantity ≥ 0, the scaled quantity
attached by `adjustServings` equals `quantity × partySize / baseServings`
rounded to 1 decimal place with round-half-up.  (The code has no separate
seasoning list: `adjustServings` scales exactly the entries of
`标准份量.食材列表`, so the claim's quantification over "ingredient and
seasoning lists" is over this one list.) -/
theorem scaling_law (people : ℚ) (r : Recipe) (sp : StdPortion)
    (lst : List Ingredient) (hsp : r.«标准份量» = some sp)
    (hb : 1 ≤ sp.«基准人数») (hlst : sp.«食材列表» = some lst)
    (hq : ∀ ing ∈ lst, 0 ≤ ing.«用量») :
    (adjustOne people r).«调整后食材» =
      some (lst.map fun ing =>
        { «食材名称» := ing.«食材名称», «用量» := ing.«用量», «单位» := ing.«单位»,
          «调整用量» := specRound1 (ing.«用量» * people / sp.«基准人数») }) := by
  unfold adjustOne
  rw [hsp]
  simp only [hlst]
  refine congrArg some (List.map_congr_left fun ing _ => ?_)
  simp only [round1_eq_specRound1, AdjustedIngredient.mk.injEq, true_and]
  rw [mul_div_assoc]

/-- Witness for C1 at the source's own sample recipe with `partySize = 6`. -/
theorem scaling_law_witness :
    wRecipe1.«标准份量» = some { «基准人数» := 6, «食材列表» := some wIngs1 } ∧
    (1 : ℚ) ≤ 6 ∧ (∀ ing ∈ wIngs1, 0 ≤ ing.«用量») ∧
    (adjustOne 6 wRecipe1).«调整后食材» =
      some (wIngs1.map fun ing =>
        { «食材名称» := ing.«食材名称», «用量» := ing.«用量», «单位» := ing.«单位»,
          «调整用量» := specRound1 (ing.«用量» * 6 / 6) }) :=
  ⟨rfl, by norm_num, by decide,
    scaling_law 6 wRecipe1 { «基准人数» := 6, «食材列表» := some wIngs1 } wIngs1
      rfl (by norm_num) rfl (by decide)⟩

/-! ## C3 — relaxation rule -/

/-- C3: if the strict filter pass yields fewer than 10 recipes the pipeline
re-runs exactly once with the difficulty predicate disabled and continues on
that relaxed result, whatever its size; with 10 or more recipes the strict
result is used and no relaxation occurs. -/
theorem relaxation_rule (shuffle : List Recipe → List Recipe)
    (recipes : List Recipe) (params : Params) :
    ((filterRecipes recipes params).length < 10 →
      recommend shuffle recipes params =
        adjustServings
          (selectedMenu shuffle (filterRecipes recipes (relaxedParams params)) params)
          params.«用餐人数») ∧
    (10 ≤ (filterRecipes recipes params).length →
      recommend shuffle recipes params =
        adjustServings (selectedMenu shuffle (filterRecipes recipes params) params)
          params.«用餐人数») := by
  constructor
  · intro h
    rw [recommend, effectiveFiltered]
    simp only [if_pos h]
  · intro h
    rw [recommend, effectiveFiltered]
    simp only [if_neg (Nat.not_lt.mpr h)]

/-- Witness for C3: an empty catalog (0 < 10, relaxed pass used) and a
ten-recipe catalog (10 ≥ 10, strict pass used). -/
theorem relaxation_rule_witness :
    ((filterRecipes [] wParams).length < 10 ∧
      recommend id [] wParams =
        adjustServings (selectedMenu id (filterRecipes [] (relaxedParams wParams)) wParams)
          wParams.«用餐人数») ∧
    (10 ≤ (filterRecipes wCat10 wParams).length ∧
      recommend id wCat10 wParams =
        adjustServings (selectedMenu id (filterRecipes wCat10 wParams) wParams)
          wParams.«用餐人数») :=
  ⟨⟨by decide, (relaxation_rule id [] wParams).1 (by decide)⟩,
   ⟨by decide, (relaxation_rule id wCat10 wParams).2 (by decide)⟩⟩

/-! ## C5 — DataError policy -/

/-- C5 counterexample: a recipe whose `标准份量` (and hence baseServings) is
missing is *not* excluded from selection eligibility — it is selected into the
returned menu unchanged, the request completes normally, and no `DataError`
or diagnostic list exists anywhere in the pipeline's output. -/
theorem dataError_counterexample :
    (recommend id [plainRecipe "NOPORTION"] wParams).«主菜» = [plainRecipe "NOPORTION"] := by
  decide

/-- C5 amended: scaling never fails — a recipe whose `标准份量` is missing is
passed through `adjustServings` unchanged (no error is raised, the recipe
stays eligible and selectable, and no diagnostic is produced; the code has no
`DataError` channel at all). -/
theorem dataError_amended (people : ℚ) (r : Recipe) (h : r.«标准份量» = none) :
    adjustOne people r = r := by
  unfold adjustOne
  rw [h]

/-- Witness for the amended C5 at a concrete portion-less recipe. -/
theorem dataError_amended_witness :
    (plainRecipe "NOPORTION").«标准份量» = none ∧
    adjustOne 6 (plainRecipe "NOPORTION") = plainRecipe "NOPORTION" :=
  ⟨rfl, dataError_amended 6 (plainRecipe "NOPORTION") rfl⟩

/-! ## C7 — percentage law -/

/-- C7: every percentage field of the nutrition summary equals the rounded
ratio of the corresponding total to the fixed daily reference value
(calories 2000, protein 60, carbohydrate 300, fat 67, fiber 25). -/
theorem percentage_law (menu : Menu) (people : ℚ) :
    (calculate menu people).«百分比».«热量» =
        jsRound ((calculate menu people).«总量».«热量» / 2000 * 100) ∧
    (calculate menu people).«百分比».«蛋白质» =
        jsRound ((calculate menu people).«总量».«蛋白质» / 60 * 100) ∧
    (calculate menu people).«百分比».«碳水化合物» =
        jsRound ((calculate menu people).«总量».«碳水化合物» / 300 * 100) ∧
    (calculate menu people).«百分比».«脂肪» =
        jsRound ((calculate menu people).«总量».«脂肪» / 67 * 100) ∧
    (calculate menu people).«百分比».«纤维素» =
        jsRound ((calculate menu people).«总量».«纤维素» / 25 * 100) :=
  ⟨rfl, rfl, rfl, rfl, rfl⟩

/-! ## C9 — determinism -/

/-- C9 counterexample: the code's randomness is ambient `Math.random` (and the
shopping list embeds the wall clock), not a seeded generator; two invocations
on the *same catalog and request* that only differ in the ambient random draw
produce different bundles, so no (catalog, request, seed) triple determines
the output. -/
theorem determinism_counterexample :
    fullBundle id (fun _ _ => true) "t" [plainRecipe "A", plainRecipe "B"] wParams ≠
      fullBundle (fun l => l.reverse) (fun _ _ => true) "t"
        [plainRecipe "A", plainRecipe "B"] wParams := by
  intro h
  exact absurd (congrArg MenuBundle.«菜单» h) (by decide)

/-- C9 amended: the pipeline is deterministic in all of its actual inputs —
given the same catalog, request, shuffle outcome, collation and clock
reading, two invocations produce equal bundles. -/
theorem determinism_amended (sh1 sh2 : List Recipe → List Recipe)
    (col1 col2 : String → String → Bool) (now1 now2 : String)
    (recipes : List Recipe) (params : Params)
    (hsh : ∀ l, sh1 l = sh2 l) (hcol : ∀ a b, col1 a b = col2 a b)
    (hnow : now1 = now2) :
    fullBundle sh1 col1 now1 recipes params = fullBundle sh2 col2 now2 recipes params := by
  obtain rfl : sh1 = sh2 := funext hsh
  obtain rfl : col1 = col2 := funext fun a => funext fun b => hcol a b
  rw [hnow]

/-- Witness for the amended C9 at concrete inputs. -/
theorem determinism_amended_witness :
    (∀ l : List Recipe, id l = id l) ∧ ("t" : String) = "t" ∧
    fullBundle id (fun _ _ => true) "t" [plainRecipe "A"] wParams =
      fullBundle id (fun _ _ => true) "t" [plainRecipe "A"] wParams :=
  ⟨fun _ => rfl, rfl,
    determinism_amended id id (fun _ _ => true) (fun _ _ => true) "t" "t"
      [plainRecipe "A"] wParams (fun _ => rfl) (fun _ _ => rfl) rfl⟩

/-! ## C8 — nutrition classification -/

/-- C8: calories and fat are classified 偏低/偏高/适中 against the 0.7/1.3
band, protein against the 0.8/1.2 band with 充足 in band, and the overall
verdict is 营养不足 when more than 2 of the three classified nutrients are
偏低, 营养过剩 when more than 2 are 偏高, otherwise 营养均衡 exactly when
protein is 充足 and fat is 适中, else 基本均衡. -/
theorem nutrition_classification (total : NutritionTotals) :
    ((evaluateNutrition total dailyRecommendation).«热量» =
      if total.«热量» / 2000 < 7/10 then "偏低"
      else if total.«热量» / 2000 > 13/10 then "偏高" else "适中") ∧
    ((evaluateNutrition total dailyRecommendation).«蛋白质» =
      if total.«蛋白质» / 60 < 8/10 then "偏低"
      else if total.«蛋白质» / 60 > 12/10 then "偏高" else "充足") ∧
    ((evaluateNutrition total dailyRecommendation).«脂肪» =
      if total.«脂肪» / 67 < 7/10 then "偏低"
      else if total.«脂肪» / 67 > 13/10 then "偏高" else "适中") ∧
    ((evaluateNutrition total dailyRecommendation).«总体» =
      if 2 < ([(evaluateNutrition total dailyRecommendation).«热量»,
               (evaluateNutrition total dailyRecommendation).«蛋白质»,
               (evaluateNutrition total dailyRecommendation).«脂肪»].count "偏低") then
        "营养不足"
      else if 2 < ([(evaluateNutrition total dailyRecommendation).«热量»,
                    (evaluateNutrition total dailyRecommendation).«蛋白质»,
                    (evaluateNutrition total dailyRecommendation).«脂肪»].count "偏高") then
        "营养过剩"
      else if (evaluateNutrition total dailyRecommendation).«蛋白质» = "充足" ∧
          (evaluateNutrition total dailyRecommendation).«脂肪» = "适中" then
        "营养均衡"
      else "基本均衡") := by
  refine ⟨rfl, rfl, rfl, ?_⟩
  simp only [List.count_eq_countP, List.countP_eq_length_filter]
  rfl

/-! ## C4 — filter contract -/

/-- Season predicate the code actually implements: pass iff the requested
season is 不限, or `适用季节` is absent, or the (present) list contains the
season.  A present-but-empty list matches nothing (an empty array is truthy
in JavaScript). -/
def seasonPass (params : Params) (r : Recipe) : Bool :=
  params.«季节» == "不限" || !r.«适用季节».isSome
    || (r.«适用季节».getD []).contains params.«季节»

/-- Difficulty predicate the code actually implements: pass iff the requested
difficulty is 不限, or the recipe has no difficulty, or the difficulty is
*equal* to the requested one (not an ordinal ceiling). -/
def difficultyPass (params : Params) (r : Recipe) : Bool :=
  params.«难度等级» == "不限" || !r.«难度等级».isSome
    || (r.«难度等级».getD "") == params.«难度等级»

/-- Time predicate the code actually implements: pass iff no time budget is
set, or the recipe has no cook time, or `烹饪时间` alone (preparation time is
not counted) is within the budget. -/
def timePass (params : Params) (r : Recipe) : Bool :=
  !params.«烹饪时间».isSome || !r.«烹饪时间».isSome
    || decide (r.«烹饪时间».getD 0 ≤ params.«烹饪时间».getD 0)

/-- Dietary predicate the code actually implements: the `特殊需求` block is a
no-op, so every recipe passes. -/
def dietaryPass (_params : Params) (_r : Recipe) : Bool := true

theorem if_false_chain (c x : Bool) : (if c then false else x) = (!c && x) := by
  cases c <;> simp

theorem filterPred_eq (params : Params) (r : Recipe) :
    filterPred params r =
      (seasonPass params r && difficultyPass params r && timePass params r
        && dietaryPass params r) := by
  unfold filterPred seasonPass difficultyPass timePass dietaryPass
  rw [if_false_chain, if_false_chain, if_false_chain]
  have hle : decide (r.«烹饪时间».getD 0 ≤ params.«烹饪时间».getD 0)
      = !decide (params.«烹饪时间».getD 0 < r.«烹饪时间».getD 0) := by
    by_cases h : params.«烹饪时间».getD 0 < r.«烹饪时间».getD 0
    · simp [h, not_le.mpr h]
    · simp [h, not_lt.mp h]
  rw [hle]
  simp only [bne, Bool.not_and, Bool.not_not, Bool.and_true]
  rw [Bool.and_assoc]

/-- C4 amended: `filterRecipes` returns exactly the recipes satisfying the
four predicates it actually implements — season match (absent `适用季节`
passes, a present list must contain the season unless it is 不限), difficulty
*equality* when both sides carry one, cook-time-only budget (preparation time
ignored), and a vacuous dietary check (tags are never consulted). -/
theorem filter_contract_amended (recipes : List Recipe) (params : Params) :
    filterRecipes recipes params = recipes.filter fun r =>
      seasonPass params r && difficultyPass params r && timePass params r
        && dietaryPass params r := by
  unfold filterRecipes
  exact List.filter_congr fun r _ => filterPred_eq params r

/-- Witness for the amended C4 (no hypotheses beyond the universally
quantified inputs; evaluated at a concrete catalog). -/
theorem filter_contract_amended_witness :
    filterRecipes [wRecipe1, plainRecipe "p"] wParams =
      [wRecipe1, plainRecipe "p"].filter fun r =>
        seasonPass wParams r && difficultyPass wParams r && timePass wParams r
          && dietaryPass wParams r :=
  filter_contract_amended [wRecipe1, plainRecipe "p"] wParams

/-- The ordinal rank of the difficulty enum 初级 < 中级 < 高级. -/
def difficultyRank (d : String) : ℕ :=
  if d = "初级" then 0 else if d = "中级" then 1 else 2

/-- Season match as C4 words it: seasons empty (or absent) matches any
request, otherwise the set must contain the requested season, unless the
request's season is 不限. -/
def specSeasonMatch (req : Params) (r : Recipe) : Bool :=
  req.«季节» == "不限" || (r.«适用季节».getD []).isEmpty
    || (r.«适用季节».getD []).contains req.«季节»

/-- Difficulty ceiling as C4 words it: recipe difficulty ≤ requested
difficulty as an inclusive ordinal bound, when set. -/
def specDifficultyLe (req : Params) (r : Recipe) : Bool :=
  req.«难度等级» == "不限" || !r.«难度等级».isSome
    || decide (difficultyRank (r.«难度等级».getD "") ≤ difficultyRank req.«难度等级»)

/-- Time budget as C4 words it: preparation plus cook time within the
budget, when set. -/
def specTimeWithin (req : Params) (r : Recipe) : Bool :=
  !req.«烹饪时间».isSome
    || decide (r.«准备时间».getD 0 + r.«烹饪时间».getD 0 ≤ req.«烹饪时间».getD 0)

/-- Dietary exclusion as C4 words it: no overlap between the recipe's tags
and the request's exclusions. -/
def specNoDietaryOverlap (req : Params) (r : Recipe) : Bool :=
  !(r.«标签».any fun t => req.«特殊需求».contains t)

/-- The filter C4 claims: all four spec predicates conjoined. -/
def specFilterRecipes (recipes : List Recipe) (req : Params) : List Recipe :=
  recipes.filter fun r =>
    specSeasonMatch req r && specDifficultyLe req r && specTimeWithin req r
      && specNoDietaryOverlap req r

/-- A recipe with a present-but-empty season list. -/
def cRecipeSeason : Recipe := { plainRecipe "S" with «适用季节» := some [] }

/-- A beginner-difficulty recipe. -/
def cRecipeDifficulty : Recipe := { plainRecipe "D" with «难度等级» := some "初级" }

/-- A recipe whose preparation time dominates its cook time. -/
def cRecipeTime : Recipe :=
  { plainRecipe "T" with «准备时间» := some 100, «烹饪时间» := some 50 }

/-- A recipe tagged 辣. -/
def cRecipeTagged : Recipe := { plainRecipe "G" with «标签» := ["辣"] }

/-- A spring request with an advanced difficulty ceiling, a 120-minute budget
and a 辣 exclusion. -/
def cParams4 : Params :=
  { «用餐人数» := 6, «季节» := "春季", «口味偏好» := [], «特殊需求» := ["辣"],
    «烹饪时间» := some 120, «难度等级» := "高级" }

attribute [local semireducible] Rat.add Rat.sub Rat.mul Rat.inv in
/-- C4 counterexample: on a concrete catalog and request, `filterRecipes`
differs from the filter described by the claim in all four predicates — it
rejects an empty-but-present season list and a recipe strictly below the
difficulty ceiling, and it accepts a recipe whose prep+cook time exceeds the
budget as well as a recipe tagged with an excluded tag. -/
theorem filter_contract_counterexample :
    filterRecipes [cRecipeSeason, cRecipeDifficulty, cRecipeTime, cRecipeTagged] cParams4 ≠
      specFilterRecipes [cRecipeSeason, cRecipeDifficulty, cRecipeTime, cRecipeTagged]
        cParams4 := by
  decide

/-! ## C6 — selection bound -/

theorem randomSelect_length (shuffle : List Recipe → List Recipe)
    (hsh : ∀ l, (shuffle l).Perm l) (l : List Recipe) (count : ℕ) :
    (randomSelect shuffle l count).length = min count l.length := by
  simp only [randomSelect, List.length_take, (hsh l).length_eq, inf_eq_min]
  rw [min_assoc, min_self]

theorem randomSelect_subperm (shuffle : List Recipe → List Recipe)
    (hsh : ∀ l, (shuffle l).Perm l) (l : List Recipe) (count : ℕ) :
    (randomSelect shuffle l count).Subperm l :=
  ((List.take_sublist _ _).subperm).trans (hsh l).subperm

theorem randomSelect_nodup (shuffle : List Recipe → List Recipe)
    (hsh : ∀ l, (shuffle l).Perm l) (l : List Recipe) (count : ℕ)
    (hnd : l.Nodup) : (randomSelect shuffle l count).Nodup :=
  (List.take_sublist _ _).nodup ((hsh l).nodup_iff.mpr hnd)

theorem randomSelect_mem (shuffle : List Recipe → List Recipe)
    (hsh : ∀ l, (shuffle l).Perm l) {l : List Recipe} {count : ℕ} {r : Recipe}
    (hr : r ∈ randomSelect shuffle l count) : r ∈ l :=
  (hsh l).mem_iff.mp (List.take_subset _ _ hr)

/-- The common shape of the four `select…` functions. -/
theorem selectShape_spec (shuffle : List Recipe → List Recipe)
    (hsh : ∀ l, (shuffle l).Perm l) (l : List Recipe) (count : ℕ)
    (hnd : l.Nodup) :
    (if l.length = 0 then [] else randomSelect shuffle l count).length
        = min count l.length ∧
    (if l.length = 0 then [] else randomSelect shuffle l count).Nodup ∧
    (if l.length = 0 then [] else randomSelect shuffle l count).Subperm l := by
  by_cases hl : l.length = 0
  · simp [hl, List.nil_subperm]
  · rw [if_neg hl]
    exact ⟨randomSelect_length shuffle hsh l count,
      randomSelect_nodup shuffle hsh l count hnd,
      randomSelect_subperm shuffle hsh l count⟩

/-- C6: for each category the number of selected recipes equals
`min (bucket size, target)` with the party-size-dependent targets of the
source (`main`: 2 iff ≥ 8 people; `side`: 1/2/3 by party size; `soup` and
`staple`: 1), and the selection is a duplicate-free draw without replacement
from that category's bucket. -/
theorem selection_bound (shuffle : List Recipe → List Recipe)
    (hsh : ∀ l, (shuffle l).Perm l) (filtered : List Recipe) (params : Params)
    (hnd : filtered.Nodup) :
    ((selectedMenu shuffle filtered params).«主菜».length =
        min (if params.«用餐人数» ≥ 8 then 2 else 1) (bucketOf "主菜" filtered).length ∧
      (selectedMenu shuffle filtered params).«主菜».Nodup ∧
      (selectedMenu shuffle filtered params).«主菜».Subperm (bucketOf "主菜" filtered)) ∧
    ((selectedMenu shuffle filtered params).«配菜».length =
        min (if params.«用餐人数» ≤ 4 then 1 else if params.«用餐人数» ≤ 8 then 2 else 3)
          (bucketOf "配菜" filtered).length ∧
      (selectedMenu shuffle filtered params).«配菜».Nodup ∧
      (selectedMenu shuffle filtered params).«配菜».Subperm (bucketOf "配菜" filtered)) ∧
    ((selectedMenu shuffle filtered params).«汤品».length =
        min 1 (bucketOf "汤品" filtered).length ∧
      (selectedMenu shuffle filtered params).«汤品».Nodup ∧
      (selectedMenu shuffle filtered params).«汤品».Subperm (bucketOf "汤品" filtered)) ∧
    ((selectedMenu shuffle filtered params).«主食».length =
        min 1 (bucketOf "主食" filtered).length ∧
      (selectedMenu shuffle filtered params).«主食».Nodup ∧
      (selectedMenu shuffle filtered params).«主食».Subperm (bucketOf "主食" filtered)) :=
  ⟨selectShape_spec shuffle hsh (bucketOf "主菜" filtered) _ (hnd.filter _),
   selectShape_spec shuffle hsh (bucketOf "配菜" filtered) _ (hnd.filter _),
   selectShape_spec shuffle hsh (bucketOf "汤品" filtered) _ (hnd.filter _),
   selectShape_spec shuffle hsh (bucketOf "主食" filtered) _ (hnd.filter _)⟩

/-- Witness for C6 at the identity shuffle and a concrete two-recipe
filtered list. -/
theorem selection_bound_witness :
    (∀ l : List Recipe, (id l).Perm l) ∧
    ([wRecipe1, plainRecipe "p"] : List Recipe).Nodup ∧
    ((selectedMenu id [wRecipe1, plainRecipe "p"] wParams).«主菜».length =
      min (if wParams.«用餐人数» ≥ 8 then 2 else 1)
        (bucketOf "主菜" [wRecipe1, plainRecipe "p"]).length) :=
  ⟨fun l => List.Perm.refl l, by decide,
    ((selection_bound id (fun l => List.Perm.refl l) [wRecipe1, plainRecipe "p"]
      wParams (by decide)).1).1⟩

/-! ## C10 — menu shape invariant -/

theorem adjustOne_classes (people : ℚ) (r : Recipe) :
    (adjustOne people r).«菜品分类» = r.«菜品分类» := by
  unfold adjustOne
  rcases hsp : r.«标准份量» with _ | ⟨base, _ | lst⟩ <;> rfl

theorem mem_bucketOf {cat : String} {filtered : List Recipe} {r : Recipe}
    (hr : r ∈ bucketOf cat filtered) :
    ∃ cats, r.«菜品分类» = some cats ∧ cat ∈ cats := by
  have hp := List.of_mem_filter hr
  rw [Bool.and_eq_true] at hp
  obtain ⟨hsome, hcont⟩ := hp
  cases hcl : r.«菜品分类» with
  | none => rw [hcl] at hsome; simp at hsome
  | some cats =>
    refine ⟨cats, rfl, ?_⟩
    rw [hcl] at hcont
    simpa using hcont

/-- Membership through one of the four `select…` functions lands in the
bucket it drew from. -/
theorem mem_of_mem_selectShape (shuffle : List Recipe → List Recipe)
    (hsh : ∀ l, (shuffle l).Perm l) {l : List Recipe} {count : ℕ} {r : Recipe}
    (hr : r ∈ (if l.length = 0 then [] else randomSelect shuffle l count)) :
    r ∈ l := by
  by_cases hl : l.length = 0
  · rw [if_pos hl] at hr
    simp at hr
  · rw [if_neg hl] at hr
    exact randomSelect_mem shuffle hsh hr

/-- C10: the menu returned by `recommend` consists of exactly the four fixed
category keys (the `Menu` record), each holding a possibly empty list, and
every recipe listed under a category key carries that category tag in its
`菜品分类` list. -/
theorem menu_shape (shuffle : List Recipe → List Recipe)
    (hsh : ∀ l, (shuffle l).Perm l) (recipes : List Recipe) (params : Params) :
    (∀ r ∈ (recommend shuffle recipes params).«主菜»,
      ∃ cats, r.«菜品分类» = some cats ∧ "主菜" ∈ cats) ∧
    (∀ r ∈ (recommend shuffle recipes params).«配菜»,
      ∃ cats, r.«菜品分类» = some cats ∧ "配菜" ∈ cats) ∧
    (∀ r ∈ (recommend shuffle recipes params).«汤品»,
      ∃ cats, r.«菜品分类» = some cats ∧ "汤品" ∈ cats) ∧
    (∀ r ∈ (recommend shuffle recipes params).«主食»,
      ∃ cats, r.«菜品分类» = some cats ∧ "主食" ∈ cats) := by
  refine ⟨?_, ?_, ?_, ?_⟩ <;> intro r hr <;>
    obtain ⟨r0, hr0, rfl⟩ := List.mem_map.mp hr <;>
    rw [adjustOne_classes] <;>
    exact mem_bucketOf (mem_of_mem_selectShape shuffle hsh hr0)

/-- Witness for C10 at the identity shuffle and a one-recipe catalog. -/
theorem menu_shape_witness :
    (∀ l : List Recipe, (id l).Perm l) ∧
    (∀ r ∈ (recommend id [wRecipe1] wParams).«主菜»,
      ∃ cats, r.«菜品分类» = some cats ∧ "主菜" ∈ cats) :=
  ⟨fun l => List.Perm.refl l,
    (menu_shape id (fun l => List.Perm.refl l) [wRecipe1] wParams).1⟩

/-! ## C2 — shopping-list item-count identity -/

/-- The keys of the `items` accumulator, in insertion order. -/
def itemKeys (items : List (String × ItemAcc)) : List String := items.map Prod.fst

/-- Reading `items[k]` from the accumulator. -/
def lookupItem (k : String) (items : List (String × ItemAcc)) : Option ItemAcc :=
  (items.find? fun kv => kv.1 == k).map Prod.snd

/-- The sum of the scaled quantities of all entries named `k`. -/
def sumFor (k : String) (l : List AdjustedIngredient) : ℚ :=
  ((l.filter fun i => i.«食材名称» == k).map fun i => i.«调整用量»).sum

/-- The unit attached to the first occurrence of name `k`
(`ingredient.单位 || '适量'`). -/
def firstUnitFor (k : String) (l : List AdjustedIngredient) : Option String :=
  (l.find? fun i => i.«食材名称» == k).map fun i => i.«单位».getD "适量"

theorem find?_fst_map (k : String) (f : String × ItemAcc → String × ItemAcc)
    (hf : ∀ kv, (f kv).1 = kv.1) (items : List (String × ItemAcc)) :
    (items.map f).find? (fun kv => kv.1 == k)
      = (items.find? fun kv => kv.1 == k).map f := by
  rw [List.find?_map]
  have hcomp : ((fun kv : String × ItemAcc => kv.1 == k) ∘ f) = fun kv => kv.1 == k :=
    funext fun kv => by simp [Function.comp, hf]
  rw [hcomp]

theorem itemKeys_map (f : String × ItemAcc → String × ItemAcc)
    (hf : ∀ kv, (f kv).1 = kv.1) (items : List (String × ItemAcc)) :
    itemKeys (items.map f) = itemKeys items := by
  unfold itemKeys
  rw [List.map_map]
  exact List.map_congr_left fun kv _ => hf kv

/-- The update closure used inside `addIngredient` preserves keys. -/
theorem addIngredient_bump_fst (key : String) (amt : ℚ) (kv : String × ItemAcc) :
    ((if kv.1 == key then (kv.1, { kv.2 with «用量» := kv.2.«用量» + amt }) else kv)).1
      = kv.1 := by
  by_cases h : (kv.1 == key) = true <;> simp [h]

theorem itemKeys_addIngredient (items : List (String × ItemAcc))
    (ing : AdjustedIngredient) :
    itemKeys (addIngredient items ing) =
      if items.any (fun kv => kv.1 == ing.«食材名称») then itemKeys items
      else itemKeys items ++ [ing.«食材名称»] := by
  simp only [addIngredient]
  by_cases h : (items.any fun kv => kv.1 == ing.«食材名称») = true
  · rw [if_pos h, if_pos h]
    exact itemKeys_map _ (addIngredient_bump_fst _ _) items
  · rw [if_neg h, if_neg h]
    rw [itemKeys_map _ (addIngredient_bump_fst _ _)]
    unfold itemKeys
    rw [List.map_append]
    rfl

theorem lookupItem_addIngredient (k : String) (items : List (String × ItemAcc))
    (ing : AdjustedIngredient) :
    lookupItem k (addIngredient items ing) =
      if k == ing.«食材名称» then
        some { «用量» := ((lookupItem k items).map ItemAcc.«用量»).getD 0 + ing.«调整用量»,
               «单位» := ((lookupItem k items).map ItemAcc.«单位»).getD (ing.«单位».getD "适量"),
               «分类» := ((lookupItem k items).map ItemAcc.«分类»).getD (categorizeIngredient k) }
      else lookupItem k items := by
  simp only [addIngredient]
  by_cases hmem : (items.any fun kv => kv.1 == ing.«食材名称») = true
  · rw [if_pos hmem]
    unfold lookupItem
    rw [find?_fst_map k _ (addIngredient_bump_fst _ _) items]
    by_cases hk : (k == ing.«食材名称») = true
    · rw [if_pos hk]
      have hkeq : k = ing.«食材名称» := eq_of_beq hk
      rw [hkeq]
      obtain ⟨kv, hfind⟩ :
          ∃ kv, items.find? (fun kv => kv.1 == ing.«食材名称») = some kv := by
        have hs : (items.find? (fun kv => kv.1 == ing.«食材名称»)).isSome = true :=
          List.find?_isSome.mpr (List.any_eq_true.mp hmem)
        cases hcase : items.find? (fun kv => kv.1 == ing.«食材名称») with
        | none => rw [hcase] at hs; simp at hs
        | some kv => exact ⟨kv, rfl⟩
      have hkv1 : (kv.1 == ing.«食材名称») = true := by
        have := List.find?_some hfind
        exact this
      rw [hfind]
      simp [hkv1]
      rw [if_pos (eq_of_beq hkv1)]
    · rw [if_neg hk]
      rw [Bool.not_eq_true] at hk
      cases hfind : items.find? (fun kv => kv.1 == k) with
      | none => simp [lookupItem, hfind]
      | some kv =>
        have h1 : kv.1 = k := eq_of_beq (by have := List.find?_some hfind; exact this)
        have h2 : (kv.1 == ing.«食材名称») = false := by rw [h1]; exact hk
        simp [lookupItem, hfind, h2]
        rw [if_neg (beq_eq_false_iff_ne.mp h2)]
  · rw [if_neg hmem]
    unfold lookupItem
    rw [find?_fst_map k _ (addIngredient_bump_fst _ _)]
    rw [List.find?_append]
    by_cases hk : (k == ing.«食材名称») = true
    · rw [if_pos hk]
      have hkeq : k = ing.«食材名称» := eq_of_beq hk
      rw [hkeq]
      have hnone : items.find? (fun kv => kv.1 == ing.«食材名称») = none := by
        rw [List.find?_eq_none]
        intro kv hkv hb
        exact hmem (List.any_eq_true.mpr ⟨kv, hkv, hb⟩)
      rw [hnone]
      simp [lookupItem, hnone, List.find?]
    · rw [if_neg hk]
      rw [Bool.not_eq_true, beq_eq_false_iff_ne] at hk
      have hne : (ing.«食材名称» == k) = false :=
        beq_eq_false_iff_ne.mpr fun h => hk h.symm
      cases hfind : items.find? (fun kv => kv.1 == k) with
      | none => simp [lookupItem, hfind, List.find?, hne]
      | some kv =>
        have h1 : kv.1 = k := eq_of_beq (by have := List.find?_some hfind; exact this)
        have h2 : (kv.1 == ing.«食材名称») = false := by
          rw [h1]
          exact beq_eq_false_iff_ne.mpr hk
        simp [lookupItem, hfind, h2, List.find?, hne]
        rw [if_neg (beq_eq_false_iff_ne.mp h2)]

theorem lookupItem_foldl (l : List AdjustedIngredient) (k : String)
    (items : List (String × ItemAcc)) :
    lookupItem k (l.foldl addIngredient items) =
      match lookupItem k items with
      | some acc => some { acc with «用量» := acc.«用量» + sumFor k l }
      | none =>
        match firstUnitFor k l with
        | some u => some { «用量» := sumFor k l, «单位» := u,
                           «分类» := categorizeIngredient k }
        | none => none := by
  induction l generalizing items with
  | nil =>
    cases h : lookupItem k items <;> simp [h, sumFor, firstUnitFor]
  | cons i l ih =>
    rw [List.foldl_cons, ih (addIngredient items i), lookupItem_addIngredient]
    by_cases hk : (k == i.«食材名称») = true
    · rw [if_pos hk]
      have hkeq : k = i.«食材名称» := eq_of_beq hk
      have hsum : sumFor k (i :: l) = i.«调整用量» + sumFor k l := by
        unfold sumFor
        rw [List.filter_cons_of_pos (by simp [hkeq]), List.map_cons, List.sum_cons]
      have hunit : firstUnitFor k (i :: l) = some (i.«单位».getD "适量") := by
        unfold firstUnitFor
        rw [List.find?_cons_of_pos _ (by simp [hkeq])]
        rfl
      rw [hsum, hunit]
      cases hacc : lookupItem k items with
      | none => simp [hacc]
      | some acc => simp [hacc, add_assoc]
    · rw [if_neg hk]
      rw [Bool.not_eq_true, beq_eq_false_iff_ne] at hk
      have hsum : sumFor k (i :: l) = sumFor k l := by
        unfold sumFor
        rw [List.filter_cons_of_neg (by simp only [beq_iff_eq]; exact fun h => hk h.symm)]
      have hunit : firstUnitFor k (i :: l) = firstUnitFor k l := by
        unfold firstUnitFor
        rw [List.find?_cons_of_neg _ (by simp only [beq_iff_eq]; exact fun h => hk h.symm)]
      rw [hsum, hunit]

theorem hasKey_iff (k : String) (items : List (String × ItemAcc)) :
    (items.any fun kv => kv.1 == k) = true ↔ k ∈ itemKeys items := by
  simp [itemKeys, List.any_eq_true, beq_iff_eq, List.mem_map]

theorem itemKeys_nodup_foldl (l : List AdjustedIngredient)
    (items : List (String × ItemAcc)) (h : (itemKeys items).Nodup) :
    (itemKeys (l.foldl addIngredient items)).Nodup := by
  induction l generalizing items with
  | nil => exact h
  | cons i l ih =>
    rw [List.foldl_cons]
    apply ih
    rw [itemKeys_addIngredient]
    by_cases hmem : (items.any fun kv => kv.1 == i.«食材名称») = true
    · rw [if_pos hmem]; exact h
    · rw [if_neg hmem]
      rw [List.nodup_append]
      refine ⟨h, List.nodup_singleton _, ?_⟩
      intro x hx hx2
      rcases List.mem_singleton.mp hx2 with rfl
      exact hmem ((hasKey_iff _ _).mpr hx)

theorem mem_itemKeys_foldl (l : List AdjustedIngredient) (k : String)
    (items : List (String × ItemAcc)) :
    k ∈ itemKeys (l.foldl addIngredient items) ↔
      k ∈ itemKeys items ∨ k ∈ l.map (fun i => i.«食材名称») := by
  induction l generalizing items with
  | nil => simp
  | cons i l ih =>
    rw [List.foldl_cons, ih, itemKeys_addIngredient]
    by_cases hmem : (items.any fun kv => kv.1 == i.«食材名称») = true
    · rw [if_pos hmem]
      have hmm : i.«食材名称» ∈ itemKeys items := (hasKey_iff _ _).mp hmem
      simp only [List.map_cons, List.mem_cons]
      constructor
      · rintro (h | h)
        exacts [Or.inl h, Or.inr (Or.inr h)]
      · rintro (h | h | h)
        exacts [Or.inl h, Or.inl (by rw [h]; exact hmm), Or.inr h]
    · rw [if_neg hmem]
      simp only [List.map_cons, List.mem_cons, List.mem_append, List.mem_singleton]
      tauto

theorem buildItems_length (menu : Menu) :
    (buildItems menu).length =
      ((allAdjusted menu).map (fun i => i.«食材名称»)).toFinset.card := by
  have hnd : (itemKeys (buildItems menu)).Nodup :=
    itemKeys_nodup_foldl _ [] (by simp [itemKeys])
  have hmem : ∀ x, x ∈ itemKeys (buildItems menu) ↔
      x ∈ (allAdjusted menu).map (fun i => i.«食材名称») := by
    intro x
    unfold buildItems
    rw [mem_itemKeys_foldl]
    simp [itemKeys]
  have hfin : (itemKeys (buildItems menu)).toFinset =
      ((allAdjusted menu).map fun i => i.«食材名称»).toFinset := by
    ext x
    simp only [List.mem_toFinset]
    exact hmem x
  have hlen : (buildItems menu).length = (itemKeys (buildItems menu)).length := by
    simp [itemKeys]
  rw [hlen, ← List.toFinset_card_of_nodup hnd, hfin]

theorem categorize_mem_six (name : String) :
    categorizeIngredient name ∈ ["蔬菜类", "肉类", "水产类", "调味品", "主食类", "其他"] := by
  unfold categorizeIngredient
  cases h : keywordTable.find? (fun e => e.2.any fun keyword => strIncludes name keyword) with
  | none => simp
  | some e =>
    have hmem := List.mem_of_find?_eq_some h
    simp only [keywordTable, List.mem_cons, List.not_mem_nil, or_false] at hmem
    rcases hmem with rfl | rfl | rfl | rfl | rfl <;> simp

theorem catField_generate (collate : String → String → Bool) (menu : Menu)
    (people : ℚ) (now : String) (cat : String)
    (h : cat ∈ ["蔬菜类", "肉类", "水产类", "调味品", "主食类", "其他"]) :
    catField (generate collate menu people now).«清单» cat =
      sortedEntriesFor collate (buildItems menu) cat := by
  simp only [List.mem_cons, List.not_mem_nil, or_false] at h
  rcases h with rfl | rfl | rfl | rfl | rfl | rfl <;> rfl

/-- C2: the shopping list's total item count equals the number of distinct
ingredient names across all scaled ingredients of the menu's selected
recipes, and each distinct name is listed (in the category its name's
keywords select) with the sum of all same-named scaled quantities rounded to
2 decimals and the unit of the name's first occurrence. -/
theorem shopping_item_count (collate : String → String → Bool) (menu : Menu)
    (people : ℚ) (now : String) :
    (generate collate menu people now).«统计».«总项数» =
      ((allAdjusted menu).map (fun i => i.«食材名称»)).toFinset.card ∧
    (∀ k, k ∈ (allAdjusted menu).map (fun i => i.«食材名称») →
      ∃ u, firstUnitFor k (allAdjusted menu) = some u ∧
        { «名称» := k, «用量» := specRound2 (sumFor k (allAdjusted menu)),
          «单位» := u, «已购买» := false }
          ∈ catField (generate collate menu people now).«清单»
              (categorizeIngredient k)) := by
  constructor
  · exact buildItems_length menu
  · intro k hk
    obtain ⟨i0, hi0, hname⟩ := List.mem_map.mp hk
    obtain ⟨u, hu⟩ : ∃ u, firstUnitFor k (allAdjusted menu) = some u := by
      unfold firstUnitFor
      have hs : ((allAdjusted menu).find? fun i => i.«食材名称» == k).isSome = true :=
        List.find?_isSome.mpr ⟨i0, hi0, by simp [hname]⟩
      cases hc : (allAdjusted menu).find? (fun i => i.«食材名称» == k) with
      | none => rw [hc] at hs; simp at hs
      | some i1 => exact ⟨i1.«单位».getD "适量", rfl⟩
    refine ⟨u, hu, ?_⟩
    have hlk : lookupItem k (buildItems menu) =
        some { «用量» := sumFor k (allAdjusted menu), «单位» := u,
               «分类» := categorizeIngredient k } := by
      have h1 := lookupItem_foldl (allAdjusted menu) k []
      have h0 : lookupItem k ([] : List (String × ItemAcc)) = none := rfl
      rw [h0, hu] at h1
      exact h1
    obtain ⟨kv, hkv_find, hkv_snd⟩ :
        ∃ kv, (buildItems menu).find? (fun kv => kv.1 == k) = some kv ∧
          kv.2 = { «用量» := sumFor k (allAdjusted menu), «单位» := u,
                   «分类» := categorizeIngredient k } := by
      unfold lookupItem at hlk
      cases hc : (buildItems menu).find? (fun kv => kv.1 == k) with
      | none => rw [hc] at hlk; simp at hlk
      | some kv =>
        rw [hc] at hlk
        exact ⟨kv, rfl, by simpa using hlk⟩
    have hkv1 : kv.1 = k := eq_of_beq (by have := List.find?_some hkv_find; exact this)
    have hkvmem : kv ∈ buildItems menu := List.mem_of_find?_eq_some hkv_find
    have hent : ({ «名称» := k, «用量» := specRound2 (sumFor k (allAdjusted menu)),
                   «单位» := u, «已购买» := false } : ShoppingEntry)
          ∈ entriesFor (buildItems menu) (categorizeIngredient k) := by
      unfold entriesFor
      rw [List.mem_map]
      refine ⟨kv, ?_, ?_⟩
      · rw [List.mem_filter]
        refine ⟨hkvmem, ?_⟩
        rw [hkv_snd]
        exact beq_self_eq_true _
      · rw [hkv_snd, hkv1]
        rfl
    rw [catField_generate collate menu people now _ (categorize_mem_six k)]
    unfold sortedEntriesFor
    exact (List.mergeSort_perm _ _).mem_iff.mpr hent

/-- A selected recipe carrying two scaled ingredients, one shared with
`wAdjRecipe2`. -/
def wAdjRecipe1 : Recipe :=
  { plainRecipe "W1" with
    «调整后食材» := some [
      { «食材名称» := "猪肉", «用量» := 300, «单位» := some "克", «调整用量» := 300 },
      { «食材名称» := "青菜", «用量» := 200, «单位» := some "克", «调整用量» := 200 }] }

/-- A second selected recipe repeating the 猪肉 ingredient. -/
def wAdjRecipe2 : Recipe :=
  { plainRecipe "W2" with
    «菜品分类» := some ["汤品"],
    «调整后食材» := some [
      { «食材名称» := "猪肉", «用量» := 100, «单位» := some "克", «调整用量» := 150 }] }

/-- A concrete two-recipe menu for the C2 witness. -/
def wMenu2 : Menu :=
  { «主菜» := [wAdjRecipe1], «配菜» := [], «汤品» := [wAdjRecipe2], «主食» := [] }

attribute [local semireducible] Rat.add Rat.sub Rat.mul Rat.inv in
/-- Witness for C2 at a concrete menu whose two recipes share the 猪肉
ingredient. -/
theorem shopping_item_count_witness :
    ("猪肉" ∈ (allAdjusted wMenu2).map (fun i => i.«食材名称»)) ∧
    ((generate (fun _ _ => true) wMenu2 6 "t").«统计».«总项数» =
      ((allAdjusted wMenu2).map (fun i => i.«食材名称»)).toFinset.card) ∧
    (∃ u, firstUnitFor "猪肉" (allAdjusted wMenu2) = some u ∧
      { «名称» := "猪肉", «用量» := specRound2 (sumFor "猪肉" (allAdjusted wMenu2)),
        «单位» := u, «已购买» := false }
        ∈ catField (generate (fun _ _ => true) wMenu2 6 "t").«清单»
            (categorizeIngredient "猪肉")) :=
  ⟨by decide,
   (shopping_item_count (fun _ _ => true) wMenu2 6 "t").1,
   (shopping_item_count (fun _ _ => true) wMenu2 6 "t").2 "猪肉" (by decide)⟩
